import Mathlib

/-!
Shallow embedding of the WazirX trading bot (`wazirx_bot.py`, `wazirx_config.py`).

Real numbers of the Python source (floats) are modelled as rationals `ℚ`;
The Python built-in `round(x, p)` (round half to even at `p` decimal places)
is modelled exactly by `pythonRound`.  Config constants keep their source
names and values.  External effects (exchange balance fetch, market metadata,
ticker) are passed in as explicit arguments.
-/

namespace WazirXBot

/-! ## Configuration (`wazirx_config.py`) -/

def TRADING_ENABLED : Bool := true

def DRY_RUN : Bool := true

def RISK_PER_TRADE_PERCENT : ℚ := 1

def MAX_POSITION_SIZE_USDT : ℚ := 100

def MIN_BALANCE_USDT : ℚ := 10

def MAX_DAILY_LOSS_USDT : ℚ := 50

def SLIPPAGE_PERCENT : ℚ := 1/2

def MAX_OPEN_POSITIONS : ℕ := 3

def TRADING_24_7 : Bool := true

def RESTRICTED_HOURS : List ℕ := [0, 1, 2, 3, 4, 5]

def DEFAULT_SL_PERCENT : ℚ := 2

def DEFAULT_TP_PERCENT : ℚ := 4

/-- `SYMBOL_MAP.get(symbol, symbol)` of the config: TradingView aliases to
WazirX symbols, defaulting to the key itself. -/
def SYMBOL_MAP_get (s : String) : String :=
  if s = "BTCUSD" then "BTC/USDT"
  else if s = "ETHUSD" then "ETH/USDT"
  else if s = "BNBUSD" then "BNB/USDT"
  else if s = "XRPUSD" then "XRP/USDT"
  else if s = "ADAUSD" then "ADA/USDT"
  else if s = "SOLUSD" then "SOL/USDT"
  else if s = "DOGEUSD" then "DOGE/USDT"
  else if s = "MATICUSD" then "MATIC/USDT"
  else if s = "DOTUSD" then "DOT/USDT"
  else if s = "SHIBUSD" then "SHIB/USDT"
  else s

def ALLOWED_SYMBOLS : List String :=
  ["btc/usdt", "eth/usdt", "bnb/usdt", "xrp/usdt", "ada/usdt",
   "sol/usdt", "doge/usdt", "matic/usdt", "dot/usdt", "shib/usdt"]

/-! ## String helpers (Python `str.lower` and `str.endswith`, restricted to
the ASCII symbols this program handles) -/

def lower_char (c : Char) : Char :=
  match c with
  | 'A' => 'a' | 'B' => 'b' | 'C' => 'c' | 'D' => 'd' | 'E' => 'e'
  | 'F' => 'f' | 'G' => 'g' | 'H' => 'h' | 'I' => 'i' | 'J' => 'j'
  | 'K' => 'k' | 'L' => 'l' | 'M' => 'm' | 'N' => 'n' | 'O' => 'o'
  | 'P' => 'p' | 'Q' => 'q' | 'R' => 'r' | 'S' => 's' | 'T' => 't'
  | 'U' => 'u' | 'V' => 'v' | 'W' => 'w' | 'X' => 'x' | 'Y' => 'y'
  | 'Z' => 'z' | c => c

/-- Python `s.lower()` on the ASCII strings used for symbols. -/
def py_lower (s : String) : String := ⟨s.data.map lower_char⟩

/-- Python `s.endswith("/USDT")`. -/
def ends_usdt (s : String) : Bool :=
  match s.data.reverse with
  | 'T' :: 'D' :: 'S' :: 'U' :: '/' :: _ => true
  | _ => false

/-! ## Python `round` (round half to even) -/

/-- Round-half-to-even to the nearest integer, as the Python built-in `round`
does on exact values. -/
def round_half_even (x : ℚ) : ℤ :=
  if x - ⌊x⌋ < 1/2 then ⌊x⌋
  else if 1/2 < x - ⌊x⌋ then ⌊x⌋ + 1
  else if Even ⌊x⌋ then ⌊x⌋ else ⌊x⌋ + 1

/-- Python `round(x, p)`: round half to even at `p` decimal places. -/
def pythonRound (x : ℚ) (p : ℕ) : ℚ :=
  (round_half_even (x * 10 ^ p) : ℚ) / 10 ^ p

/-! ## Position sizer (`calculate_position_size`, wazirx_bot.py lines 173-226)

The exchange market metadata (`exchange.load_markets()[symbol]`) is passed in
as an optional `MarketInfo`; `none` models an unknown symbol (the `if market:`
guard in the source).  `precisionAmount = some 0` and `minAmount = some 0`
are skipped exactly as the Python truthiness test (`if precision:`,
`if min_amount and ...`) skips them. -/

structure MarketInfo where
  precisionAmount : Option ℕ
  minAmount : Option ℚ
deriving DecidableEq

/-- `available_capital = usdt_free - MIN_BALANCE_USDT` (line 182). -/
def available_capital (usdt_free : ℚ) : ℚ := usdt_free - MIN_BALANCE_USDT

/-- Lines 185-186: risk amount, capped at `MAX_POSITION_SIZE_USDT * 0.02`. -/
def risk_amount (available : ℚ) : ℚ :=
  min (available * (RISK_PER_TRADE_PERCENT / 100)) (MAX_POSITION_SIZE_USDT * (2/100))

/-- Line 189: `abs(entry_price - stop_loss_price) / entry_price`. -/
def sl_distance_percent (entry_price stop_loss_price : ℚ) : ℚ :=
  |entry_price - stop_loss_price| / entry_price

/-- Lines 195-197: notional, clamped to the absolute cap and to 80% of
available capital. -/
def position_size_usdt (risk sl_distance available : ℚ) : ℚ :=
  min (min (risk / sl_distance) MAX_POSITION_SIZE_USDT) (available * (8/10))

/-- Line 200: quantity before precision rounding. -/
def raw_quantity (entry_price stop_loss_price usdt_free : ℚ) : ℚ :=
  position_size_usdt (risk_amount (available_capital usdt_free))
    (sl_distance_percent entry_price stop_loss_price)
    (available_capital usdt_free) / entry_price

/-- Lines 206-210: quantity after rounding to the exchange amount precision
(skipped when there is no market entry or no truthy precision). -/
def rounded_quantity (entry_price stop_loss_price usdt_free : ℚ)
    (market : Option MarketInfo) : ℚ :=
  match market with
  | some m =>
    match m.precisionAmount with
    | some p =>
      if p ≠ 0 then pythonRound (raw_quantity entry_price stop_loss_price usdt_free) p
      else raw_quantity entry_price stop_loss_price usdt_free
    | none => raw_quantity entry_price stop_loss_price usdt_free
  | none => raw_quantity entry_price stop_loss_price usdt_free

/-- The truthy minimum-amount limit of the market, if any (line 213). -/
def min_amount_of (market : Option MarketInfo) : Option ℚ :=
  match market with
  | some m => m.minAmount
  | none => none

/-- Lines 218-222: the final `$1` minimum-order check and success return. -/
def min_order_check (quantity entry_price : ℚ) : ℚ × String :=
  if quantity * entry_price < 1 then (0, "Order size too small (min $1.0)")
  else (quantity, "OK")

/-- `calculate_position_size` (lines 173-226): returns `(quantity, reason)`. -/
def calculate_position_size (entry_price stop_loss_price usdt_free : ℚ)
    (market : Option MarketInfo) : ℚ × String :=
  if usdt_free ≤ MIN_BALANCE_USDT then (0, "Insufficient balance")
  else if sl_distance_percent entry_price stop_loss_price ≤ 0 then
    (0, "Invalid SL distance")
  else
    let quantity := rounded_quantity entry_price stop_loss_price usdt_free market
    match min_amount_of market with
    | some ma =>
      if ma ≠ 0 ∧ quantity < ma then (0, "Order below minimum: " ++ toString ma)
      else min_order_check quantity entry_price
    | none => min_order_check quantity entry_price

/-! ## Shared mutable state (wazirx_bot.py lines 27-36)

The module-level globals: daily tracking counters, the last reset date
(calendar days as integers), and the `active_orders` map (association list
keyed by order id). -/

structure OrderInfo where
  symbol : String
  side : String
  quantity : ℚ
  entry_price : ℚ
  sl_price : ℚ
  tp_price : ℚ
  status : String
  filled_quantity : ℚ
deriving DecidableEq

structure BotState where
  daily_pnl_usdt : ℚ
  daily_pnl_inr : ℚ
  last_reset_date : ℤ
  total_trades_today : ℕ
  winning_trades_today : ℕ
  losing_trades_today : ℕ
  active_orders : List (String × OrderInfo)
deriving DecidableEq

/-- `reset_daily_tracker` (lines 57-70): zero the daily counters and move
`last_reset_date` forward when the current date differs from it; otherwise do
nothing.  The boolean reports whether a reset happened. -/
def reset_daily_tracker (today : ℤ) (s : BotState) : BotState × Bool :=
  if today ≠ s.last_reset_date then
    ({ s with
        daily_pnl_usdt := 0
        daily_pnl_inr := 0
        total_trades_today := 0
        winning_trades_today := 0
        losing_trades_today := 0
        last_reset_date := today }, true)
  else (s, false)

/-- Running a sequence of `reset_daily_tracker` calls (one per operation that
invokes it), returning the final state and how many of them actually reset. -/
def run_resets (dates : List ℤ) (s : BotState) : BotState × ℕ :=
  match dates with
  | [] => (s, 0)
  | d :: ds =>
    let r := reset_daily_tracker d s
    let rest := run_resets ds r.1
    (rest.1, (if r.2 then 1 else 0) + rest.2)

/-! ## Safety gate (`check_safety_limits`, lines 134-170)

The six checks in source order, short-circuiting.  Each distinct rejection
return site of the source (each with its own reason string) is one
constructor.  The balance is the result of `get_balance()`, passed in. -/

inductive GateResult where
  | allow
  | rejectTradingDisabled
  | rejectDailyLoss
  | rejectMaxPositions
  | rejectSymbolNotAllowed
  | rejectInsufficientBalance
  | rejectRestrictedHours
deriving DecidableEq

def check_safety_limits (today : ℤ) (s : BotState) (signal_symbol : String)
    (usdt_free : ℚ) (hour : ℕ) : BotState × GateResult :=
  let s' := (reset_daily_tracker today s).1
  if TRADING_ENABLED = false then (s', .rejectTradingDisabled)
  else if MAX_DAILY_LOSS_USDT ≤ |s'.daily_pnl_usdt| then (s', .rejectDailyLoss)
  else if MAX_OPEN_POSITIONS ≤ s'.active_orders.length then (s', .rejectMaxPositions)
  else if py_lower (SYMBOL_MAP_get signal_symbol) ∉ ALLOWED_SYMBOLS then
    (s', .rejectSymbolNotAllowed)
  else if usdt_free < MIN_BALANCE_USDT then (s', .rejectInsufficientBalance)
  else if TRADING_24_7 = false ∧ hour ∈ RESTRICTED_HOURS then
    (s', .rejectRestrictedHours)
  else (s', .allow)

/-! ## Monitor exit evaluation and realized P&L
(`monitor_active_orders` lines 449-464, `close_position` lines 343-346) -/

/-- The SL/TP trigger decision of the monitor sweep: `some reason` when the
position must be closed at `current_price`, `none` otherwise. -/
def evaluate_exit (side : String) (current_price sl_price tp_price : ℚ) :
    Option String :=
  if side = "buy" then
    if current_price ≤ sl_price then some "Stop Loss Hit"
    else if tp_price ≤ current_price then some "Take Profit Hit"
    else none
  else
    if sl_price ≤ current_price then some "Stop Loss Hit"
    else if current_price ≤ tp_price then some "Take Profit Hit"
    else none

/-- Realized P&L computed by `close_position` (lines 343-346). -/
def close_pnl (side : String) (current_price entry_price quantity : ℚ) : ℚ :=
  if side = "buy" then (current_price - entry_price) * quantity
  else (entry_price - current_price) * quantity

/-! ## Webhook signal processing (lines 481-553)

The post-gate part of the `/webhook` handler: extract and validate the
signal, default missing SL/TP, size the position, and (in `DRY_RUN` mode,
which the config fixes to `True`) build the order record that `place_order`
inserts into `active_orders`.  `none` models the 4xx rejection responses. -/

def upper_char (c : Char) : Char :=
  match c with
  | 'a' => 'A' | 'b' => 'B' | 'c' => 'C' | 'd' => 'D' | 'e' => 'E'
  | 'f' => 'F' | 'g' => 'G' | 'h' => 'H' | 'i' => 'I' | 'j' => 'J'
  | 'k' => 'K' | 'l' => 'L' | 'm' => 'M' | 'n' => 'N' | 'o' => 'O'
  | 'p' => 'P' | 'q' => 'Q' | 'r' => 'R' | 's' => 'S' | 't' => 'T'
  | 'u' => 'U' | 'v' => 'V' | 'w' => 'W' | 'x' => 'X' | 'y' => 'Y'
  | 'z' => 'Z' | c => c

/-- Python `s.upper()` on the ASCII strings used for actions. -/
def py_upper (s : String) : String := ⟨s.data.map upper_char⟩

/-- Lines 516-520: default SL when the signal carries none (`sl <= 0`). -/
def webhook_sl (action : String) (price sl : ℚ) : ℚ :=
  if sl ≤ 0 then
    if action = "BUY" then price * (1 - DEFAULT_SL_PERCENT / 100)
    else price * (1 + DEFAULT_SL_PERCENT / 100)
  else sl

/-- Lines 516-520: default TP when the signal carries none (`tp <= 0`). -/
def webhook_tp (action : String) (price tp : ℚ) : ℚ :=
  if tp ≤ 0 then
    if action = "BUY" then price * (1 + DEFAULT_TP_PERCENT / 100)
    else price * (1 - DEFAULT_TP_PERCENT / 100)
  else tp

/-- Lines 497-530 of the `/webhook` handler, given the balance and market
metadata the exchange would return: `some record` is the order record that
`place_order` (DRY_RUN branch, lines 232-248) inserts into `active_orders`;
`none` is a 4xx rejection before any insertion. -/
def webhook_process (action tv_symbol : String) (price sl tp usdt_free : ℚ)
    (market : Option MarketInfo) : Option OrderInfo :=
  let act := py_upper action
  let mapped := SYMBOL_MAP_get tv_symbol
  let symbol := if ends_usdt mapped then mapped else mapped ++ "/USDT"
  if act ∉ (["BUY", "SELL"] : List String) then none
  else if price ≤ 0 then none
  else
    let sl' := webhook_sl act price sl
    let tp' := webhook_tp act price tp
    let side := if act = "BUY" then "buy" else "sell"
    let sized := calculate_position_size price sl' usdt_free market
    if sized.1 ≤ 0 then none
    else some
      { symbol := symbol
        side := side
        quantity := sized.1
        entry_price := price
        sl_price := sl'
        tp_price := tp'
        status := "dry_run"
        filled_quantity := sized.1 }

/-- The side-consistency invariant of the spec on a stored order record
(spec §3, Order Record invariant): for a long, stop < entry < target; for a
short, target < entry < stop. -/
def side_consistent (o : OrderInfo) : Bool :=
  if o.side = "buy" then
    decide (o.sl_price < o.entry_price) && decide (o.entry_price < o.tp_price)
  else
    decide (o.tp_price < o.entry_price) && decide (o.entry_price < o.sl_price)

/-! ## Close commit and order removal (close_position lines 348-356,
monitor_active_orders lines 466-471)

The close path runs two separate critical sections: first `close_position`
adds the realized P&L to the daily counters under the lock, then - after
`close_position` has returned - the monitor deletes the order from
`active_orders` under a second lock acquisition.  `monitor_close_states`
lists the shared-state snapshots observable at those lock boundaries. -/

/-- Lines 348-356: add realized P&L and bump the win/loss counter. -/
def commit_pnl (pnl : ℚ) (s : BotState) : BotState :=
  { s with
      daily_pnl_usdt := s.daily_pnl_usdt + pnl
      winning_trades_today :=
        if 0 < pnl then s.winning_trades_today + 1 else s.winning_trades_today
      losing_trades_today :=
        if 0 < pnl then s.losing_trades_today else s.losing_trades_today + 1 }

/-- Lines 469-471: delete the order from `active_orders` if present. -/
def remove_order (order_id : String) (s : BotState) : BotState :=
  { s with active_orders := s.active_orders.filter (fun kv => kv.1 != order_id) }

/-- The successful close path of the monitor: states observable before the
P&L commit, between the two critical sections, and after the removal. -/
def monitor_close_states (order_id : String) (pnl : ℚ) (s : BotState) :
    List BotState :=
  [s, commit_pnl pnl s, remove_order order_id (commit_pnl pnl s)]

/-- Whether an order id is present in the store. -/
def order_present (order_id : String) (s : BotState) : Bool :=
  s.active_orders.any (fun kv => kv.1 == order_id)

/-! ## Retry decorator (`retry_on_failure`, lines 39-54)

The wrapped callable is a family `f : ℕ → Except ε α` giving the outcome
of each attempt.  The result records the final outcome, how many times `f` was
invoked, and the list of back-off sleeps (in source order) performed between
attempts.  `fellThrough` is the `return None` reached only when the loop
body never runs (`max_retries = 0`). -/

inductive RetryOutcome (ε α : Type) where
  | success : α → RetryOutcome ε α
  | failure : ε → RetryOutcome ε α
  | fellThrough : RetryOutcome ε α
deriving DecidableEq

def retry_go {ε α : Type} (f : ℕ → Except ε α) (max_retries : ℕ) (delay : ℚ) :
    ℕ → ℕ → RetryOutcome ε α × ℕ × List ℚ
  | 0, _ => (.fellThrough, 0, [])
  | r + 1, attempt =>
    match f attempt with
    | .ok a => (.success a, 1, [])
    | .error e =>
      if attempt = max_retries - 1 then (.failure e, 1, [])
      else
        let rest := retry_go f max_retries delay r (attempt + 1)
        (rest.1, rest.2.1 + 1, delay * (attempt + 1) :: rest.2.2)

/-- `retry_on_failure(max_retries, delay)` applied to `f`. -/
def retry_on_failure {ε α : Type} (max_retries : ℕ) (delay : ℚ)
    (f : ℕ → Except ε α) : RetryOutcome ε α × ℕ × List ℚ :=
  retry_go f max_retries delay max_retries 0

/-! ## Balance fetch (`get_balance`, lines 108-121) -/

/-- The body of `get_balance`: the underlying `exchange.fetch_balance()`
either yields `(usdt_free, usdt_total)` or raises; the body catches every
exception and returns zeros.  It never raises. -/
def get_balance (fetch : Except String (ℚ × ℚ)) : ℚ × ℚ :=
  match fetch with
  | .ok b => b
  | .error _ => (0, 0)

/-! ## Shared concrete evaluations -/

lemma calc_scenario :
    calculate_position_size 50000 49000 1010 none = (1/500, "OK") := by
  have habs : |(50000 : ℚ) - 49000| = 1000 := by
    rw [show (50000 : ℚ) - 49000 = 1000 by norm_num]
    exact abs_of_pos (by norm_num)
  simp only [calculate_position_size, min_amount_of, rounded_quantity,
    raw_quantity, position_size_usdt, risk_amount, available_capital,
    sl_distance_percent, min_order_check, MIN_BALANCE_USDT,
    MAX_POSITION_SIZE_USDT, RISK_PER_TRADE_PERCENT, habs]
  norm_num [min_def]

/-! ## C1: end-to-end scenario -/

/-- C1 counterexample: on the scenario signal (buy BTCUSD at 50000 with stop
49000, free balance 1010, so usable capital 1000), the computed risk amount is
not 10 and the returned quantity is not 0.01 BTC: line 186 caps the risk
amount at `MAX_POSITION_SIZE_USDT * 0.02 = 2`, so the claimed values are
false on the code. -/
theorem c1_counterexample :
    risk_amount (available_capital 1010) ≠ 10 ∧
    (calculate_position_size 50000 49000 1010 none).1 ≠ 1/100 := by
  constructor
  · simp only [risk_amount, available_capital, MIN_BALANCE_USDT,
      MAX_POSITION_SIZE_USDT, RISK_PER_TRADE_PERCENT]
    norm_num [min_def]
  · rw [calc_scenario]
    norm_num

/-- C1 amended: for the signal (buy, "BTCUSD", price 50000, stop 49000) with
free balance 1010 (usable capital 1000) and risk fraction 1%, the sizer
computes risk amount `min 10 2 = 2` (the absolute per-trade cap binds), stop
distance fraction 0.02, notional 100, and quantity 0.002 BTC; the gate allows
with 0 open orders; the webhook inserts the dry-run order (default target
52000); a later price of 49000 triggers a stop-loss close with realized
P&L (49000 - 50000) * 0.002 = -2. -/
theorem c1_amended_scenario :
    available_capital 1010 = 1000 ∧
    risk_amount 1000 = 2 ∧
    sl_distance_percent 50000 49000 = 1/50 ∧
    position_size_usdt 2 (1/50) 1000 = 100 ∧
    calculate_position_size 50000 49000 1010 none = (1/500, "OK") ∧
    (check_safety_limits 0 ⟨0, 0, 0, 0, 0, 0, []⟩ "BTCUSD" 1010 12).2 =
      .allow ∧
    webhook_process "buy" "BTCUSD" 50000 49000 0 1010 none =
      some ⟨"BTC/USDT", "buy", 1/500, 50000, 49000, 52000, "dry_run", 1/500⟩ ∧
    evaluate_exit "buy" 49000 49000 52000 = some "Stop Loss Hit" ∧
    close_pnl "buy" 49000 50000 (1/500) = -2 := by
  have habs : |(50000 : ℚ) - 49000| = 1000 := by
    rw [show (50000 : ℚ) - 49000 = 1000 by norm_num]
    exact abs_of_pos (by norm_num)
  have hmap : SYMBOL_MAP_get "BTCUSD" = "BTC/USDT" := by decide
  have hlow : py_lower "BTC/USDT" = "btc/usdt" := by decide
  have hup : py_upper "buy" = "BUY" := by decide
  have hend : ends_usdt "BTC/USDT" = true := by decide
  have hmem : ("btc/usdt" : String) ∈ ALLOWED_SYMBOLS := by decide
  refine ⟨?_, ?_, ?_, ?_, calc_scenario, ?_, ?_, ?_, ?_⟩
  · simp only [available_capital, MIN_BALANCE_USDT]
    norm_num
  · simp only [risk_amount, MAX_POSITION_SIZE_USDT, RISK_PER_TRADE_PERCENT]
    norm_num [min_def]
  · simp only [sl_distance_percent, habs]
    norm_num
  · simp only [position_size_usdt, MAX_POSITION_SIZE_USDT]
    norm_num [min_def]
  · simp only [check_safety_limits, reset_daily_tracker, TRADING_ENABLED,
      MAX_DAILY_LOSS_USDT, MAX_OPEN_POSITIONS, TRADING_24_7, MIN_BALANCE_USDT,
      hmap, hlow]
    norm_num [hmem]
  · have hsl : webhook_sl "BUY" 50000 49000 = 49000 := by
      simp only [webhook_sl]
      norm_num
    have htp : webhook_tp "BUY" 50000 0 = 52000 := by
      simp only [webhook_tp, DEFAULT_TP_PERCENT]
      norm_num
    simp only [webhook_process, hup, hmap, hend, if_true, hsl, htp,
      calc_scenario]
    norm_num
  · simp [evaluate_exit]
  · simp only [close_pnl, if_pos rfl]
    norm_num

/-! ## C2: sizing caps and precision rounding -/

lemma round_half_even_sub_abs_le (x : ℚ) :
    |(round_half_even x : ℚ) - x| ≤ 1/2 := by
  have h1 : (⌊x⌋ : ℚ) ≤ x := Int.floor_le x
  have h2 : x < ⌊x⌋ + 1 := Int.lt_floor_add_one x
  unfold round_half_even
  split_ifs with hlt hgt hev
  · rw [abs_le]
    constructor <;> linarith
  · push_cast
    rw [abs_le]
    constructor <;> linarith
  · rw [abs_le]
    constructor <;> linarith
  · push_cast
    rw [abs_le]
    constructor <;> linarith

lemma pythonRound_sub_abs_le (x : ℚ) (p : ℕ) :
    |pythonRound x p - x| ≤ 1 / (2 * 10 ^ p) := by
  have hp : (0 : ℚ) < 10 ^ p := by positivity
  have h := round_half_even_sub_abs_le (x * 10 ^ p)
  unfold pythonRound
  have heq : (round_half_even (x * 10 ^ p) : ℚ) / 10 ^ p - x
      = ((round_half_even (x * 10 ^ p) : ℚ) - x * 10 ^ p) / 10 ^ p := by
    field_simp
    ring
  rw [heq, abs_div, abs_of_pos hp, div_le_div_iff₀ hp (by positivity)]
  nlinarith [abs_nonneg ((round_half_even (x * 10 ^ p) : ℚ) - x * 10 ^ p)]

/-- C2 counterexample: entry 1250, stop 1225, free balance 1010, market
amount precision 1.  The unrounded quantity is 0.08, but the Python `round`
(round to nearest) rounds it up to 0.1, whose notional 125 exceeds
`MAX_POSITION_SIZE_USDT = 100`: the claim that the returned quantity notional
never exceeds the caps and that rounding never rounds up is false. -/
theorem c2_counterexample :
    (calculate_position_size 1250 1225 1010 (some ⟨some 1, none⟩)).1 * 1250 >
      MAX_POSITION_SIZE_USDT ∧
    (calculate_position_size 1250 1225 1010 (some ⟨some 1, none⟩)).1 >
      raw_quantity 1250 1225 1010 := by
  have habs : |(1250 : ℚ) - 1225| = 25 := by
    rw [show (1250 : ℚ) - 1225 = 25 by norm_num]
    exact abs_of_pos (by norm_num)
  have hsd : sl_distance_percent 1250 1225 = 1/50 := by
    simp only [sl_distance_percent, habs]
    norm_num
  have hraw : raw_quantity 1250 1225 1010 = 2/25 := by
    simp only [raw_quantity, position_size_usdt, risk_amount,
      available_capital, sl_distance_percent, MIN_BALANCE_USDT,
      MAX_POSITION_SIZE_USDT, RISK_PER_TRADE_PERCENT, habs]
    norm_num [min_def]
  have hfl : ⌊(2/25 : ℚ) * 10 ^ 1⌋ = 0 := by
    rw [Int.floor_eq_iff]
    norm_num
  have hround : pythonRound (2/25) 1 = 1/10 := by
    simp only [pythonRound, round_half_even, hfl]
    norm_num
  have hcalc : calculate_position_size 1250 1225 1010 (some ⟨some 1, none⟩) =
      (1/10, "OK") := by
    simp only [calculate_position_size, MIN_BALANCE_USDT, hsd,
      rounded_quantity, min_amount_of, hraw, hround, min_order_check]
    norm_num
  rw [hcalc, hraw]
  simp only [MAX_POSITION_SIZE_USDT]
  norm_num

/-- C2 amended: the quantity before precision rounding satisfies both caps
(its notional is at most `MAX_POSITION_SIZE_USDT` and at most 80% of usable
capital), and the precision rounding is round-to-nearest (half to even),
moving the quantity by at most half a precision step `1 / (2 * 10 ^ p)`; the
notional of the returned quantity may therefore exceed the absolute cap only by
at most `entry / (2 * 10 ^ p)`. -/
theorem c2_amended_caps (entry stop free : ℚ) (p : ℕ) (mina : Option ℚ)
    (h1 : 0 < entry) (h2 : MIN_BALANCE_USDT < free) :
    raw_quantity entry stop free * entry ≤ MAX_POSITION_SIZE_USDT ∧
    raw_quantity entry stop free * entry ≤ available_capital free * (8/10) ∧
    |rounded_quantity entry stop free (some ⟨some p, mina⟩) -
        raw_quantity entry stop free| ≤ 1 / (2 * 10 ^ p) ∧
    (calculate_position_size entry stop free (some ⟨some p, mina⟩)).1 * entry
      ≤ MAX_POSITION_SIZE_USDT + entry / (2 * 10 ^ p) := by
  have hraw_max : raw_quantity entry stop free * entry ≤
      MAX_POSITION_SIZE_USDT := by
    rw [raw_quantity, div_mul_cancel₀ _ (ne_of_gt h1)]
    exact (min_le_left _ _).trans (min_le_right _ _)
  have hraw_cap : raw_quantity entry stop free * entry ≤
      available_capital free * (8/10) := by
    rw [raw_quantity, div_mul_cancel₀ _ (ne_of_gt h1)]
    exact min_le_right _ _
  have hround : |rounded_quantity entry stop free (some ⟨some p, mina⟩) -
      raw_quantity entry stop free| ≤ 1 / (2 * 10 ^ p) := by
    simp only [rounded_quantity]
    by_cases hp0 : p = 0
    · subst hp0
      simp
    · simp only [hp0, ne_eq, not_false_eq_true, if_true]
      exact pythonRound_sub_abs_le _ p
  have hstep : (0 : ℚ) < entry / (2 * 10 ^ p) := by positivity
  have hmaxpos : (0 : ℚ) < MAX_POSITION_SIZE_USDT := by
    simp only [MAX_POSITION_SIZE_USDT]
    norm_num
  refine ⟨hraw_max, hraw_cap, hround, ?_⟩
  have hle : rounded_quantity entry stop free (some ⟨some p, mina⟩) ≤
      raw_quantity entry stop free + 1 / (2 * 10 ^ p) := by
    have := (abs_le.mp hround).2
    linarith
  have hmul : rounded_quantity entry stop free (some ⟨some p, mina⟩) * entry ≤
      (raw_quantity entry stop free + 1 / (2 * 10 ^ p)) * entry :=
    mul_le_mul_of_nonneg_right hle (le_of_lt h1)
  have hub : rounded_quantity entry stop free (some ⟨some p, mina⟩) * entry ≤
      MAX_POSITION_SIZE_USDT + entry / (2 * 10 ^ p) := by
    have hring : (raw_quantity entry stop free + 1 / (2 * 10 ^ p)) * entry =
        raw_quantity entry stop free * entry + entry / (2 * 10 ^ p) := by
      ring
    rw [hring] at hmul
    linarith
  simp only [calculate_position_size, min_amount_of, min_order_check]
  rcases mina with _ | ma <;>
    simp only [apply_ite Prod.fst] <;>
    split_ifs <;>
    first | exact hub | (rw [zero_mul]; linarith)

theorem c2_amended_caps_witness :
    (0 : ℚ) < 50000 ∧ MIN_BALANCE_USDT < 1010 ∧
    (raw_quantity 50000 49000 1010 * 50000 ≤ MAX_POSITION_SIZE_USDT ∧
     raw_quantity 50000 49000 1010 * 50000 ≤
       available_capital 1010 * (8/10) ∧
     |rounded_quantity 50000 49000 1010 (some ⟨some 3, none⟩) -
         raw_quantity 50000 49000 1010| ≤ 1 / (2 * 10 ^ 3) ∧
     (calculate_position_size 50000 49000 1010 (some ⟨some 3, none⟩)).1 * 50000
       ≤ MAX_POSITION_SIZE_USDT + 50000 / (2 * 10 ^ 3)) :=
  ⟨by norm_num, by norm_num [MIN_BALANCE_USDT],
   c2_amended_caps 50000 49000 1010 3 none (by norm_num)
     (by norm_num [MIN_BALANCE_USDT])⟩

/-! ## C3: side-consistency of stored stop/target -/

/-- C3 counterexample: the buy signal (price 50000, stop 60000, target
100000) has its stop on the wrong side of entry, yet the webhook accepts it
and inserts the order record unchanged: the handler (lines 496-530) validates
only the action and the price sign, never the side consistency of explicit
stop/target values. -/
theorem c3_counterexample :
    webhook_process "BUY" "BTCUSD" 50000 60000 100000 1010 none =
      some ⟨"BTC/USDT", "buy", 1/5000, 50000, 60000, 100000, "dry_run",
        1/5000⟩ ∧
    side_consistent ⟨"BTC/USDT", "buy", 1/5000, 50000, 60000, 100000,
      "dry_run", 1/5000⟩ = false := by
  have habs : |(50000 : ℚ) - 60000| = 10000 := by
    rw [show (50000 : ℚ) - 60000 = -(10000) by norm_num, abs_neg]
    exact abs_of_pos (by norm_num)
  have hcalc : calculate_position_size 50000 60000 1010 none =
      (1/5000, "OK") := by
    simp only [calculate_position_size, min_amount_of, rounded_quantity,
      raw_quantity, position_size_usdt, risk_amount, available_capital,
      sl_distance_percent, min_order_check, MIN_BALANCE_USDT,
      MAX_POSITION_SIZE_USDT, RISK_PER_TRADE_PERCENT, habs]
    norm_num [min_def]
  have hup : py_upper "BUY" = "BUY" := by decide
  have hmap : SYMBOL_MAP_get "BTCUSD" = "BTC/USDT" := by decide
  have hend : ends_usdt "BTC/USDT" = true := by decide
  have hsl : webhook_sl "BUY" 50000 60000 = 60000 := by
    simp only [webhook_sl]
    norm_num
  have htp : webhook_tp "BUY" 50000 100000 = 100000 := by
    simp only [webhook_tp]
    norm_num
  constructor
  · simp only [webhook_process, hup, hmap, hend, if_true, hsl, htp, hcalc]
    norm_num
  · simp only [side_consistent, if_pos rfl]
    norm_num

/-- C3 amended: the webhook rejects a signal only for an invalid action or a
non-positive price; when the signal omits stop and target (both non-positive)
the defaulted values are side-consistent, but explicit positive stop/target
values are inserted without any side-consistency check (see the
counterexample). -/
theorem c3_amended_validation (action tv_symbol : String)
    (price sl tp free : ℚ) (market : Option MarketInfo) (o : OrderInfo) :
    (webhook_process action tv_symbol price sl tp free market = some o →
      (py_upper action = "BUY" ∨ py_upper action = "SELL") ∧ 0 < price) ∧
    (sl ≤ 0 → tp ≤ 0 →
      webhook_process action tv_symbol price sl tp free market = some o →
      side_consistent o = true) := by
  constructor
  · intro h
    simp only [webhook_process] at h
    have h1 : py_upper action ∈ (["BUY", "SELL"] : List String) := by
      by_contra hnot
      rw [if_pos hnot] at h
      exact absurd h (by simp)
    rw [if_neg (not_not_intro h1)] at h
    have h2 : ¬ price ≤ 0 := by
      intro hle
      rw [if_pos hle] at h
      exact absurd h (by simp)
    refine ⟨by simpa using h1, lt_of_not_le h2⟩
  · intro hsl htp h
    simp only [webhook_process, webhook_sl, webhook_tp, if_pos hsl,
      if_pos htp] at h
    have h1 : py_upper action ∈ (["BUY", "SELL"] : List String) := by
      by_contra hnot
      rw [if_pos hnot] at h
      exact absurd h (by simp)
    rw [if_neg (not_not_intro h1)] at h
    have h2 : ¬ price ≤ 0 := by
      intro hle
      rw [if_pos hle] at h
      exact absurd h (by simp)
    rw [if_neg h2] at h
    have hp : 0 < price := lt_of_not_le h2
    by_cases hb : py_upper action = "BUY"
    · -- action "BUY": defaults price*(1 - 2%) < price < price*(1 + 4%)
      simp only [if_pos hb] at h
      split_ifs at h <;>
        first
          | exact Option.noConfusion h
          | (obtain ho := Option.some.inj h
             subst ho
             simp only [side_consistent, if_pos rfl, if_true,
               Bool.and_eq_true, decide_eq_true_eq, DEFAULT_SL_PERCENT,
               DEFAULT_TP_PERCENT]
             exact ⟨by nlinarith, by nlinarith⟩)
    · -- action "SELL": defaults price*(1 - 4%) < price < price*(1 + 2%)
      simp only [if_neg hb] at h
      split_ifs at h <;>
        first
          | exact Option.noConfusion h
          | (obtain ho := Option.some.inj h
             subst ho
             simp only [side_consistent, DEFAULT_SL_PERCENT,
               DEFAULT_TP_PERCENT]
             rw [if_neg (by decide : ¬("sell" : String) = "buy")]
             rw [Bool.and_eq_true, decide_eq_true_eq, decide_eq_true_eq]
             exact ⟨by nlinarith, by nlinarith⟩)

theorem c3_amended_validation_witness :
    (0 : ℚ) ≤ 0 ∧
    webhook_process "buy" "BTCUSD" 50000 0 0 1010 none =
      some ⟨"BTC/USDT", "buy", 1/500, 50000, 49000, 52000, "dry_run",
        1/500⟩ ∧
    side_consistent ⟨"BTC/USDT", "buy", 1/500, 50000, 49000, 52000,
      "dry_run", 1/500⟩ = true := by
  have hup : py_upper "buy" = "BUY" := by decide
  have hmap : SYMBOL_MAP_get "BTCUSD" = "BTC/USDT" := by decide
  have hend : ends_usdt "BTC/USDT" = true := by decide
  have hsl : webhook_sl "BUY" 50000 0 = 49000 := by
    simp only [webhook_sl, DEFAULT_SL_PERCENT]
    norm_num
  have htp : webhook_tp "BUY" 50000 0 = 52000 := by
    simp only [webhook_tp, DEFAULT_TP_PERCENT]
    norm_num
  have heq : webhook_process "buy" "BTCUSD" 50000 0 0 1010 none =
      some ⟨"BTC/USDT", "buy", 1/500, 50000, 49000, 52000, "dry_run",
        1/500⟩ := by
    simp only [webhook_process, hup, hmap, hend, if_true, hsl, htp,
      calc_scenario]
    norm_num
  exact ⟨le_rfl, heq,
    (c3_amended_validation "buy" "BTCUSD" 50000 0 0 1010 none
      ⟨"BTC/USDT", "buy", 1/500, 50000, 49000, 52000, "dry_run", 1/500⟩).2
      le_rfl le_rfl heq⟩

/-! ## C4: commit/removal atomicity -/

/-- A concrete filled order used in the close-path scenarios. -/
def ordA : OrderInfo :=
  ⟨"BTC/USDT", "buy", 1/500, 50000, 49000, 52000, "filled", 1/500⟩

lemma order_present_remove (order_id : String) (s : BotState) :
    order_present order_id (remove_order order_id s) = false := by
  simp only [order_present, remove_order]
  rw [Bool.eq_false_iff]
  intro h
  rw [List.any_eq_true] at h
  obtain ⟨kv, hkv, hp⟩ := h
  rw [List.mem_filter] at hkv
  exact absurd (beq_iff_eq.mp hp) (bne_iff_ne.mp hkv.2)

/-- C4 counterexample: closing order "O1" with P&L -2 from the state holding
only that order: the state after `close_position`'s locked P&L commit (lines
350-355) but before the separate locked removal by the monitor (lines 469-471) is
one of the observable lock-boundary states, and in it the P&L is already
committed while the order is still present — the commit/removal pair is not
atomic. -/
theorem c4_counterexample :
    commit_pnl (-2) ⟨0, 0, 0, 0, 0, 0, [("O1", ordA)]⟩ ∈
      monitor_close_states "O1" (-2) ⟨0, 0, 0, 0, 0, 0, [("O1", ordA)]⟩ ∧
    (commit_pnl (-2) ⟨0, 0, 0, 0, 0, 0, [("O1", ordA)]⟩).daily_pnl_usdt =
      0 + (-2) ∧
    order_present "O1" (commit_pnl (-2) ⟨0, 0, 0, 0, 0, 0, [("O1", ordA)]⟩) =
      true := by
  refine ⟨?_, rfl, rfl⟩
  simp [monitor_close_states]

/-- C4 amended: on the successful close path the P&L commit strictly precedes
the removal of the order.  One direction of the claimed atomicity does hold: no
observable state has the order removed without its P&L committed.  The other
direction fails: the state between the two critical sections (see the
counterexample) has the P&L committed with the order still present. -/
theorem c4_amended_commit_before_removal (order_id : String) (pnl : ℚ)
    (s : BotState) (hpres : order_present order_id s = true) :
    commit_pnl pnl s ∈ monitor_close_states order_id pnl s ∧
    order_present order_id (commit_pnl pnl s) = true ∧
    (commit_pnl pnl s).daily_pnl_usdt = s.daily_pnl_usdt + pnl ∧
    ∀ t ∈ monitor_close_states order_id pnl s,
      order_present order_id t = false →
        t.daily_pnl_usdt = s.daily_pnl_usdt + pnl := by
  refine ⟨by simp [monitor_close_states], hpres, rfl, ?_⟩
  intro t ht habs
  simp only [monitor_close_states, List.mem_cons, List.not_mem_nil,
    or_false] at ht
  rcases ht with h | h | h <;> subst h
  · exact absurd (hpres.symm.trans habs) (by decide)
  · exact absurd (hpres.symm.trans habs) (by decide)
  · rfl

theorem c4_amended_commit_before_removal_witness :
    order_present "O1" ⟨0, 0, 0, 0, 0, 0, [("O1", ordA)]⟩ = true ∧
    ∀ t ∈ monitor_close_states "O1" (-2) ⟨0, 0, 0, 0, 0, 0, [("O1", ordA)]⟩,
      order_present "O1" t = false →
        t.daily_pnl_usdt = (0 : ℚ) + (-2) :=
  ⟨rfl, (c4_amended_commit_before_removal "O1" (-2)
    ⟨0, 0, 0, 0, 0, 0, [("O1", ordA)]⟩ rfl).2.2.2⟩

/-! ## C5: exit triggers and realized P&L -/

/-- C5: the monitor closes a long ("buy") order exactly when the price is at
or below the stop or at or beyond the target, and a short order exactly when
the price is at or beyond the stop or at or below the target; a price
strictly between stop and target never triggers; the realized P&L is
(exit - entry) * quantity for a long and (entry - exit) * quantity for a
short (lines 449-464, 343-346). -/
theorem c5_exit_conditions_pnl (current sl tp entry qty : ℚ) :
    ((evaluate_exit "buy" current sl tp).isSome ↔
      (current ≤ sl ∨ tp ≤ current)) ∧
    ((evaluate_exit "sell" current sl tp).isSome ↔
      (sl ≤ current ∨ current ≤ tp)) ∧
    (sl < current → current < tp → evaluate_exit "buy" current sl tp = none) ∧
    (tp < current → current < sl →
      evaluate_exit "sell" current sl tp = none) ∧
    close_pnl "buy" current entry qty = (current - entry) * qty ∧
    close_pnl "sell" current entry qty = (entry - current) * qty := by
  refine ⟨?_, ?_, ?_, ?_, ?_, ?_⟩
  · simp only [evaluate_exit, String.reduceEq, reduceIte]
    split_ifs with h1 h2 <;> simp [*]
  · simp only [evaluate_exit, String.reduceEq, reduceIte]
    split_ifs with h1 h2 <;> simp [*]
  · intro hs ht
    simp only [evaluate_exit, String.reduceEq, reduceIte]
    rw [if_neg (not_le.mpr hs), if_neg (not_le.mpr ht)]
  · intro ht hs
    simp only [evaluate_exit, String.reduceEq, reduceIte]
    rw [if_neg (not_le.mpr hs), if_neg (not_le.mpr ht)]
  · simp [close_pnl]
  · simp only [close_pnl, String.reduceEq, reduceIte]

theorem c5_exit_conditions_pnl_witness :
    (49000 : ℚ) < 50500 ∧ (50500 : ℚ) < 52000 ∧
    evaluate_exit "buy" 50500 49000 52000 = none :=
  ⟨by norm_num, by norm_num,
   (c5_exit_conditions_pnl 50500 49000 52000 0 0).2.2.1 (by norm_num)
     (by norm_num)⟩

/-! ## C6: daily ledger reset -/

lemma run_resets_same (ds : List ℤ) (s : BotState)
    (h : ∀ x ∈ ds, x = s.last_reset_date) : run_resets ds s = (s, 0) := by
  induction ds with
  | nil => rfl
  | cons d ds ih =>
    have hd : d = s.last_reset_date := h d (List.mem_cons_self d ds)
    have hr : reset_daily_tracker d s = (s, false) := by
      rw [hd]
      simp [reset_daily_tracker]
    simp only [run_resets, hr]
    rw [ih (fun x hx => h x (List.mem_cons_of_mem d hx))]
    rfl

/-- C6: the daily tracker resets exactly once per calendar-day transition:
a call whose date equals the stored reset date changes nothing; a call with
a different date zeroes every counter and moves the reset date; a sequence
of calls whose dates all equal the stored date performs no reset at all; and
a sequence that crosses one day boundary (one new date, then any number of
calls on that date) performs exactly one reset. -/
theorem c6_daily_reset (s : BotState) (d : ℤ) (ds : List ℤ) :
    reset_daily_tracker s.last_reset_date s = (s, false) ∧
    (d ≠ s.last_reset_date →
      (reset_daily_tracker d s).1.daily_pnl_usdt = 0 ∧
      (reset_daily_tracker d s).1.daily_pnl_inr = 0 ∧
      (reset_daily_tracker d s).1.total_trades_today = 0 ∧
      (reset_daily_tracker d s).1.winning_trades_today = 0 ∧
      (reset_daily_tracker d s).1.losing_trades_today = 0 ∧
      (reset_daily_tracker d s).1.last_reset_date = d ∧
      (reset_daily_tracker d s).2 = true) ∧
    ((∀ x ∈ ds, x = s.last_reset_date) → run_resets ds s = (s, 0)) ∧
    (d ≠ s.last_reset_date → (∀ x ∈ ds, x = d) →
      (run_resets (d :: ds) s).2 = 1) := by
  refine ⟨by simp [reset_daily_tracker], ?_, run_resets_same ds s, ?_⟩
  · intro hd
    simp [reset_daily_tracker, hd]
  · intro hd hds
    have hr : reset_daily_tracker d s =
        ({ s with
            daily_pnl_usdt := 0
            daily_pnl_inr := 0
            total_trades_today := 0
            winning_trades_today := 0
            losing_trades_today := 0
            last_reset_date := d }, true) := by
      simp [reset_daily_tracker, hd]
    simp only [run_resets, hr]
    rw [run_resets_same ds _ (fun x hx => hds x hx)]
    simp

theorem c6_daily_reset_witness :
    ((4 : ℤ) ≠ 3) ∧
    (run_resets [4, 4, 4] ⟨5, 1, 3, 2, 1, 1, []⟩).2 = 1 :=
  ⟨by decide,
   (c6_daily_reset ⟨5, 1, 3, 2, 1, 1, []⟩ 4 [4, 4]).2.2.2 (by decide)
     (by decide)⟩

/-! ## C7: max-open-positions boundary -/

lemma reset_preserves_orders (today : ℤ) (s : BotState) :
    (reset_daily_tracker today s).1.active_orders = s.active_orders := by
  simp only [reset_daily_tracker]
  split_ifs <;> rfl

/-- C7: once the trading switch and the daily-loss check pass, the gate
rejects with the max-positions reason exactly when the open-order count is
at least `MAX_OPEN_POSITIONS` (in particular when it equals it), and a
max-positions rejection is impossible whenever the count is strictly below
the bound (lines 147-150). -/
theorem c7_max_positions_boundary (today : ℤ) (s : BotState)
    (symbol : String) (free : ℚ) (hour : ℕ) :
    (|(reset_daily_tracker today s).1.daily_pnl_usdt| < MAX_DAILY_LOSS_USDT →
      MAX_OPEN_POSITIONS ≤ s.active_orders.length →
      (check_safety_limits today s symbol free hour).2 =
        .rejectMaxPositions) ∧
    (s.active_orders.length < MAX_OPEN_POSITIONS →
      (check_safety_limits today s symbol free hour).2 ≠
        .rejectMaxPositions) := by
  constructor
  · intro hpnl hcount
    simp only [check_safety_limits, TRADING_ENABLED, reset_preserves_orders]
    rw [if_neg (by decide : ¬(true = false)), if_neg (not_le.mpr hpnl),
      if_pos hcount]
  · intro hlt
    simp only [check_safety_limits, TRADING_ENABLED, reset_preserves_orders]
    split_ifs <;>
      first
        | exact absurd (by assumption : MAX_OPEN_POSITIONS ≤
            s.active_orders.length) (not_le.mpr hlt)
        | simp

theorem c7_max_positions_boundary_witness :
    |(reset_daily_tracker 0 ⟨0, 0, 0, 0, 0, 0,
        [("A", ordA), ("B", ordA), ("C", ordA)]⟩).1.daily_pnl_usdt| <
      MAX_DAILY_LOSS_USDT ∧
    MAX_OPEN_POSITIONS ≤ ([("A", ordA), ("B", ordA), ("C", ordA)] :
      List (String × OrderInfo)).length ∧
    (check_safety_limits 0 ⟨0, 0, 0, 0, 0, 0,
        [("A", ordA), ("B", ordA), ("C", ordA)]⟩ "BTCUSD" 1010 12).2 =
      .rejectMaxPositions := by
  have h1 : |(reset_daily_tracker 0 ⟨0, 0, 0, 0, 0, 0,
      [("A", ordA), ("B", ordA), ("C", ordA)]⟩).1.daily_pnl_usdt| <
      MAX_DAILY_LOSS_USDT := by
    simp only [reset_daily_tracker, MAX_DAILY_LOSS_USDT]
    norm_num
  have h2 : MAX_OPEN_POSITIONS ≤ ([("A", ordA), ("B", ordA), ("C", ordA)] :
      List (String × OrderInfo)).length := by
    simp [MAX_OPEN_POSITIONS]
  exact ⟨h1, h2,
    (c7_max_positions_boundary 0 ⟨0, 0, 0, 0, 0, 0,
      [("A", ordA), ("B", ordA), ("C", ordA)]⟩ "BTCUSD" 1010 12).1 h1 h2⟩

/-! ## C8: zero-quantity rejections carry a reason -/

lemma append_ne_empty_left (s t : String) (h : s.length ≠ 0) :
    s ++ t ≠ "" := by
  intro he
  apply h
  have hl := congrArg String.length he
  rw [String.length_append] at hl
  rw [show ("" : String).length = 0 from rfl] at hl
  omega

/-- C8: the sizer returns quantity zero together with a non-empty reason in
every rejection case - free balance at or below the reserve, stop equal to
entry (zero stop distance), quantity below the market minimum, and notional
below the $1 venue minimum - and a zero quantity is never paired with an
empty reason string. -/
theorem c8_zero_quantity_reasons (entry stop free : ℚ)
    (market : Option MarketInfo) :
    ((calculate_position_size entry stop free market).1 = 0 →
      (calculate_position_size entry stop free market).2 ≠ "") ∧
    (free ≤ MIN_BALANCE_USDT →
      calculate_position_size entry stop free market =
        (0, "Insufficient balance")) ∧
    (MIN_BALANCE_USDT < free → stop = entry →
      calculate_position_size entry stop free market =
        (0, "Invalid SL distance")) ∧
    (MIN_BALANCE_USDT < free → 0 < sl_distance_percent entry stop →
      raw_quantity entry stop free * entry < 1 →
      calculate_position_size entry stop free none =
        (0, "Order size too small (min $1.0)")) ∧
    (∀ p ma, market = some ⟨p, some ma⟩ → ma ≠ 0 →
      MIN_BALANCE_USDT < free → 0 < sl_distance_percent entry stop →
      rounded_quantity entry stop free market < ma →
      calculate_position_size entry stop free market =
        (0, "Order below minimum: " ++ toString ma)) := by
  refine ⟨?_, ?_, ?_, ?_, ?_⟩
  · -- a zero quantity always comes with a non-empty reason
    intro h0
    rcases market with _ | ⟨p, mina⟩
    · simp only [calculate_position_size, min_amount_of,
        min_order_check] at h0 ⊢
      split_ifs at h0 ⊢ with h1 h2 h3
      · decide
      · decide
      · decide
      · dsimp only at h0
        rw [h0, zero_mul] at h3
        exact absurd (by norm_num : (0 : ℚ) < 1) h3
    · rcases mina with _ | ma
      · simp only [calculate_position_size, min_amount_of,
          min_order_check] at h0 ⊢
        split_ifs at h0 ⊢ with h1 h2 h3
        · decide
        · decide
        · decide
        · dsimp only at h0
          rw [h0, zero_mul] at h3
          exact absurd (by norm_num : (0 : ℚ) < 1) h3
      · simp only [calculate_position_size, min_amount_of,
          min_order_check] at h0 ⊢
        split_ifs at h0 ⊢ with h1 h2 h3 h4
        · decide
        · decide
        · exact append_ne_empty_left _ _ (by decide)
        · decide
        · dsimp only at h0
          rw [h0, zero_mul] at h4
          exact absurd (by norm_num : (0 : ℚ) < 1) h4
  · intro hfree
    simp only [calculate_position_size, if_pos hfree]
  · intro hfree hstop
    have hsd : sl_distance_percent entry stop = 0 := by
      simp [sl_distance_percent, hstop]
    simp only [calculate_position_size, if_neg (not_le.mpr hfree), hsd]
    norm_num
  · intro hfree hsd hsmall
    simp only [calculate_position_size, min_amount_of, rounded_quantity,
      min_order_check, if_neg (not_le.mpr hfree), if_neg (not_le.mpr hsd),
      if_pos hsmall]
  · intro p ma hmkt hma hfree hsd hlt
    subst hmkt
    simp only [calculate_position_size, min_amount_of,
      if_neg (not_le.mpr hfree), if_neg (not_le.mpr hsd),
      if_pos (And.intro hma hlt)]

theorem c8_zero_quantity_reasons_witness :
    MIN_BALANCE_USDT < 1010 ∧ (50000 : ℚ) = 50000 ∧
    calculate_position_size 50000 50000 1010 none =
      (0, "Invalid SL distance") :=
  ⟨by norm_num [MIN_BALANCE_USDT], rfl,
   (c8_zero_quantity_reasons 50000 50000 1010 none).2.2.1
     (by norm_num [MIN_BALANCE_USDT]) rfl⟩

/-! ## C9: retry wrapper contract -/

lemma retry_go_calls_le {ε α : Type} (f : ℕ → Except ε α) (N : ℕ) (d : ℚ) :
    ∀ r attempt, (retry_go f N d r attempt).2.1 ≤ r := by
  intro r
  induction r with
  | zero => intro attempt; simp [retry_go]
  | succ r ih =>
    intro attempt
    simp only [retry_go]
    cases hf : f attempt with
    | ok a => simp
    | error e =>
      split_ifs with hl
      · simp
      · simpa using Nat.succ_le_succ (ih (attempt + 1))

lemma retry_go_all_fail {ε α : Type} (f : ℕ → Except ε α) (N : ℕ) (d : ℚ)
    (g : ℕ → ε) (hf : ∀ k, k < N → f k = .error (g k)) :
    ∀ r attempt, attempt + r = N → 1 ≤ r →
      retry_go f N d r attempt =
        (.failure (g (N - 1)), r,
         (List.range' (attempt + 1) (r - 1)).map (fun i : ℕ => d * (i : ℚ))) := by
  intro r
  induction r with
  | zero => intro attempt _ h1; omega
  | succ r ih =>
    intro attempt hsum _
    have hlt : attempt < N := by omega
    simp only [retry_go, hf attempt hlt]
    rcases Nat.eq_zero_or_pos r with hr0 | hrpos
    · subst hr0
      have hlast : attempt = N - 1 := by omega
      rw [if_pos hlast, hlast]
      rfl
    · have hnot : attempt ≠ N - 1 := by omega
      rw [if_neg hnot, ih (attempt + 1) (by omega) hrpos]
      have hrange : List.range' (attempt + 1) r =
          (attempt + 1) :: List.range' (attempt + 2) (r - 1) := by
        rcases Nat.exists_eq_succ_of_ne_zero (Nat.pos_iff_ne_zero.mp hrpos)
          with ⟨r2, hr2⟩
        subst hr2
        rw [List.range'_succ]
        rfl
      simp only [Nat.add_sub_cancel, hrange, List.map_cons]
      have hcast : (d * ((attempt : ℚ) + 1) : ℚ) = d * ((attempt + 1 : ℕ) : ℚ) := by
        push_cast
        ring
      rw [hcast]

lemma retry_go_first_ok {ε α : Type} (f : ℕ → Except ε α) (N : ℕ) (d : ℚ)
    (g : ℕ → ε) (a : α) (j : ℕ) (hj : j < N)
    (herr : ∀ k, k < j → f k = .error (g k)) (hok : f j = .ok a) :
    ∀ r attempt, attempt + r = N → attempt ≤ j →
      retry_go f N d r attempt =
        (.success a, j + 1 - attempt,
         (List.range' (attempt + 1) (j - attempt)).map (fun i : ℕ => d * (i : ℚ))) := by
  intro r
  induction r with
  | zero => intro attempt hsum hle; omega
  | succ r ih =>
    intro attempt hsum hle
    by_cases haj : attempt = j
    · subst haj
      simp only [retry_go, hok]
      have h1 : attempt + 1 - attempt = 1 := by omega
      have h2 : attempt - attempt = 0 := by omega
      rw [h1, h2]
      rfl
    · have hltj : attempt < j := by omega
      simp only [retry_go, herr attempt hltj]
      have hnot : attempt ≠ N - 1 := by omega
      rw [if_neg hnot, ih (attempt + 1) (by omega) (by omega)]
      have hc1 : j + 1 - (attempt + 1) + 1 = j + 1 - attempt := by omega
      have hrange : List.range' (attempt + 1) (j - attempt) =
          (attempt + 1) :: List.range' (attempt + 2) (j - (attempt + 1)) := by
        have hj2 : j - attempt = (j - (attempt + 1)) + 1 := by omega
        rw [hj2, List.range'_succ]
      simp only [hc1, hrange, List.map_cons]
      have hcast : (d * ((attempt : ℚ) + 1) : ℚ) = d * ((attempt + 1 : ℕ) : ℚ) := by
        push_cast
        ring
      rw [hcast]

/-- C9: the retry decorator invokes the wrapped callable at most
`max_retries` times; when every attempt fails it performs exactly
`max_retries` calls, sleeps `delay * k` between attempts `k` and `k + 1`
(the back-off list is `[delay * 1, ..., delay * (N - 1)]`), and re-raises
the error of the last attempt; when attempt `j` (0-based) is the first to
succeed it returns the result of that attempt after exactly `j + 1` calls with
back-offs `[delay * 1, ..., delay * j]` and no further attempts
(lines 39-54). -/
theorem c9_retry_contract {ε α : Type} (f : ℕ → Except ε α) (N : ℕ) (d : ℚ)
    (g : ℕ → ε) (a : α) (j : ℕ) :
    (retry_on_failure N d f).2.1 ≤ N ∧
    (1 ≤ N → (∀ k, k < N → f k = .error (g k)) →
      retry_on_failure N d f =
        (.failure (g (N - 1)), N,
         (List.range' 1 (N - 1)).map (fun i : ℕ => d * (i : ℚ)))) ∧
    (j < N → (∀ k, k < j → f k = .error (g k)) → f j = .ok a →
      retry_on_failure N d f =
        (.success a, j + 1,
         (List.range' 1 j).map (fun i : ℕ => d * (i : ℚ)))) := by
  refine ⟨retry_go_calls_le f N d N 0, ?_, ?_⟩
  · intro hN hf
    exact retry_go_all_fail f N d g hf N 0 (by omega) hN
  · intro hj herr hok
    have := retry_go_first_ok f N d g a j hj herr hok N 0 (by omega)
      (by omega)
    simpa using this

theorem c9_retry_contract_witness :
    1 ≤ 3 ∧
    retry_on_failure 3 2 (fun _ => (Except.error () : Except Unit ℕ)) =
      (.failure (), 3, [2 * (1 : ℚ), 2 * (2 : ℚ)]) := by
  have h := (c9_retry_contract (fun _ => (Except.error () : Except Unit ℕ))
     3 2 (fun _ => ()) 0 0).2.1 (by omega) (fun k _ => rfl)
  refine ⟨by omega, ?_⟩
  rw [h]
  norm_num [List.range']

/-! ## C10: balance-fetch failure handling -/

/-- C10: `get_balance` never raises - on an underlying exchange failure it
returns zero balances - so its retry decorator always succeeds on the first
attempt with no back-off sleeps, and during an outage the safety gate
(whose earlier checks pass) rejects with the insufficient-balance policy
reason rather than surfacing an execution failure (lines 108-121,
159-162). -/
theorem c10_balance_failure (fetch : Except String (ℚ × ℚ)) (e : String)
    (today : ℤ) (s : BotState) (hour : ℕ) :
    retry_on_failure 3 2
        (fun _ => (Except.ok (get_balance fetch) : Except String (ℚ × ℚ))) =
      (.success (get_balance fetch), 1, []) ∧
    (fetch = .error e → get_balance fetch = (0, 0)) ∧
    (fetch = .error e →
      |(reset_daily_tracker today s).1.daily_pnl_usdt| <
        MAX_DAILY_LOSS_USDT →
      s.active_orders.length < MAX_OPEN_POSITIONS →
      (check_safety_limits today s "BTCUSD" (get_balance fetch).1 hour).2 =
        .rejectInsufficientBalance) := by
  refine ⟨rfl, ?_, ?_⟩
  · intro hf
    subst hf
    rfl
  · intro hf hpnl hcount
    subst hf
    have hmem : ¬ (py_lower (SYMBOL_MAP_get "BTCUSD") ∉ ALLOWED_SYMBOLS) := by
      decide
    simp only [check_safety_limits, TRADING_ENABLED, reset_preserves_orders]
    rw [if_neg (by decide : ¬(true = false)), if_neg (not_le.mpr hpnl),
      if_neg (not_le.mpr hcount), if_neg hmem,
      if_pos (show (get_balance (Except.error e)).1 < MIN_BALANCE_USDT by
        norm_num [get_balance, MIN_BALANCE_USDT])]

theorem c10_balance_failure_witness :
    (Except.error "boom" : Except String (ℚ × ℚ)) = .error "boom" ∧
    get_balance (Except.error "boom") = (0, 0) ∧
    (check_safety_limits 0 ⟨0, 0, 0, 0, 0, 0, []⟩ "BTCUSD"
        (get_balance (Except.error "boom")).1 12).2 =
      .rejectInsufficientBalance := by
  refine ⟨rfl, ?_, ?_⟩
  · exact (c10_balance_failure (Except.error "boom") "boom" 0
      ⟨0, 0, 0, 0, 0, 0, []⟩ 12).2.1 rfl
  · exact (c10_balance_failure (Except.error "boom") "boom" 0
      ⟨0, 0, 0, 0, 0, 0, []⟩ 12).2.2 rfl
      (by norm_num [reset_daily_tracker, MAX_DAILY_LOSS_USDT])
      (by simp [MAX_OPEN_POSITIONS])

end WazirXBot
